import Mathlib

/-!
Shallow embedding of the Subscription & Payment Reconciliation Core of the
telegram-private-channel-seller repository.

The persisted state (Prisma/PostgreSQL tables `payments` and `subscriptions`,
see the migration in the sources) is modelled as lists of records.  Timestamps
are milliseconds since the epoch (`Int`, as produced by `Date.getTime`),
monetary amounts are exact rationals (`ℚ`, the store column is
`DECIMAL(65,30)`), and row ids are strings (the store generates cuids).
External collaborators (the NOWPayments HTTP API, the tronweb client, the
Telegram bot client and the `crypto` HMAC routine) are represented at their
interface boundary: their outputs are plain inputs of the embedded operations.
-/

namespace TgSeller

/-- `PlanType` enum of the Prisma schema. -/
inductive PlanType
  | DAY
  | WEEK
  | MONTH
deriving DecidableEq, Repr

/-- `PaymentType` enum of the Prisma schema. -/
inductive PaymentType
  | TELEGRAM_STARS
  | CRYPTO_TRX
  | CRYPTO_USDT
deriving DecidableEq, Repr

/-- `PaymentStatus` enum of the Prisma schema. -/
inductive PaymentStatus
  | PENDING
  | COMPLETED
  | EXPIRED
  | FAILED
deriving DecidableEq, Repr

/-- A row of the `payments` table. -/
structure Payment where
  id : String
  userId : String
  amount : ℚ
  currency : String
  planType : PlanType
  paymentType : PaymentType
  status : PaymentStatus
  invoicePayload : Option String
  telegramPaymentChargeId : Option String
  cryptoAddress : Option String
  cryptoTxHash : Option String
  expectedAmount : Option ℚ
  expiresAt : Int
  createdAt : Int
deriving DecidableEq, Repr

/-- A row of the `subscriptions` table. -/
structure Subscription where
  id : String
  userId : String
  channelId : String
  planType : PlanType
  startDate : Int
  endDate : Int
  isActive : Bool
  paymentId : Option String
deriving DecidableEq, Repr

/-- The persisted state: the two tables the reconciliation core touches. -/
structure DB where
  payments : List Payment
  subscriptions : List Subscription
deriving DecidableEq, Repr

/-- `NowPaymentsIntegration.getPlanDuration` (also the production table of
`PaymentService.getPlanDuration` in the NOWPayments revision): plan duration
in milliseconds. -/
def getPlanDuration : PlanType → Int
  | .DAY => 24 * 60 * 60 * 1000
  | .WEEK => 7 * 24 * 60 * 60 * 1000
  | .MONTH => 30 * 24 * 60 * 60 * 1000

/-- The enabled (test-data) duration table of the tron-scanning
`PaymentService.getPlanDuration` revision. -/
def getPlanDurationLedgerRev : PlanType → Int
  | .DAY => 5 * 1000
  | .WEEK => 10 * 1000
  | .MONTH => 15 * 1000

/-- The `where` filter of the `subscription.findFirst` inside
`createSubscription`: same user, same channel, `isActive: true`,
`endDate: \x7b gte: new Date() \x7d`. -/
def isActiveSubFor (userId channelId : String) (now : Int) (s : Subscription) : Bool :=
  s.userId == userId && s.channelId == channelId && s.isActive && decide (now ≤ s.endDate)

/-- `findFirst` with `orderBy: \x7b endDate: "desc" \x7d`: the row with the
latest `endDate` (first such row on ties). -/
def latestByEndDate : List Subscription → Option Subscription
  | [] => none
  | s :: rest =>
    match latestByEndDate rest with
    | none => some s
    | some t => if s.endDate < t.endDate then some t else some s

/-- The `subscription.findFirst` call of `createSubscription`. -/
def findActiveSubscription (db : DB) (userId channelId : String) (now : Int) :
    Option Subscription :=
  latestByEndDate (db.subscriptions.filter (isActiveSubFor userId channelId now))

/-- `subscription.update \x7b where: \x7b id \x7d, data \x7d`. -/
def updateSubscription (subs : List Subscription) (id : String)
    (f : Subscription → Subscription) : List Subscription :=
  subs.map (fun s => if s.id = id then f s else s)

/-- `payment.update \x7b where: \x7b id \x7d, data \x7d`. -/
def updatePayment (ps : List Payment) (id : String) (f : Payment → Payment) :
    List Payment :=
  ps.map (fun p => if p.id = id then f p else p)

/-- `payment.findUnique \x7b where: \x7b id \x7d \x7d`. -/
def findPaymentById (db : DB) (id : String) : Option Payment :=
  db.payments.find? (fun p => p.id == id)

/-- `payment.findUnique \x7b where: \x7b cryptoTxHash \x7d \x7d`. -/
def findPaymentByTxHash (db : DB) (h : String) : Option Payment :=
  db.payments.find? (fun p => p.cryptoTxHash == some h)

/-- `payment.findUnique \x7b where: \x7b invoicePayload \x7d \x7d`. -/
def findPaymentByInvoicePayload (db : DB) (payload : String) : Option Payment :=
  db.payments.find? (fun p => p.invoicePayload == some payload)

/-- The private `createSubscription(tx, payment)` shared by
`NowPaymentsIntegration` and both `PaymentService` revisions: look for the
latest still-active subscription of (payment.userId, CHANNEL_ID); if one
exists push its `endDate` forward by the plan duration and overwrite its
`planType` (nothing else — in particular `startDate` and `paymentId` are
left as they are); otherwise insert a fresh row `[now, now + duration)`
back-referencing the payment.  `planDuration` is the revision's duration
table, `channelId` is `process.env.CHANNEL_ID`, `newSubId` the id the store
generates for an inserted row. -/
def createSubscription (planDuration : PlanType → Int) (channelId : String)
    (db : DB) (payment : Payment) (now : Int) (newSubId : String) : DB :=
  let duration := planDuration payment.planType
  match findActiveSubscription db payment.userId channelId now with
  | some existing =>
      { db with
        subscriptions :=
          updateSubscription db.subscriptions existing.id (fun s =>
            { s with
              endDate := existing.endDate + duration
              planType := payment.planType }) }
  | none =>
      { db with
        subscriptions := db.subscriptions ++
          [{ id := newSubId
             userId := payment.userId
             channelId := channelId
             planType := payment.planType
             startDate := now
             endDate := now + duration
             isActive := true
             paymentId := some payment.id }] }

/-- The fields of the NOWPayments IPN body that `handleWebhook` destructures. -/
structure WebhookPayload where
  order_id : String
  payment_status : String
  pay_amount : ℚ
  pay_currency : String
  payment_id : String
deriving DecidableEq, Repr

/-- Decimal rendering of a rational, used by the model serializer below
(JSON renders integral amounts without a fractional part). -/
def ratToString (q : ℚ) : String :=
  if q.den = 1 then toString q.num else toString q.num ++ "/" ++ toString q.den

/-- Model of `JSON.stringify(payload)` as called inside `handleWebhook`:
a canonical serialization of the already-parsed body object (V8 emits the
keys in object order with no whitespace).  Whatever raw bytes arrived at the
endpoint, the handler hashes this re-serialization, not those bytes. -/
def stringifyWebhookPayload (w : WebhookPayload) : String :=
  "\x7b\"order_id\":\"" ++ w.order_id ++
  "\",\"payment_status\":\"" ++ w.payment_status ++
  "\",\"pay_amount\":" ++ ratToString w.pay_amount ++
  ",\"pay_currency\":\"" ++ w.pay_currency ++
  "\",\"payment_id\":\"" ++ w.payment_id ++ "\"\x7d"

/-- `NowPaymentsIntegration.handleWebhook(signature, payload)`.

`hmacSha512` stands for the external `crypto` collaborator
(`NowPaymentsService.verifyWebhook` computes
`hmac_sha512(NOWPAYMENTS_IPN_SECRET, JSON.stringify(payload))` and compares
it with the header signature).  On a signature mismatch, on a non-`finished`
status, or on an unknown `order_id` the handler returns `false` without
touching the store.  Otherwise it runs one transaction: set the payment
`COMPLETED` with `cryptoTxHash := payload.payment_id` and call
`createSubscription`.  The store's unique index on `cryptoTxHash` aborts the
transaction if a *different* row already holds that hash; the surrounding
`catch` turns that into `false` with the transaction rolled back. -/
def handleWebhook (hmacSha512 : String → String → String) (ipnSecret : String)
    (channelId : String) (signature : String) (payload : WebhookPayload)
    (db : DB) (now : Int) (newSubId : String) : Bool × DB :=
  if signature ≠ hmacSha512 ipnSecret (stringifyWebhookPayload payload) then
    (false, db)
  else if payload.payment_status ≠ "finished" then
    (false, db)
  else
    match findPaymentById db payload.order_id with
    | none => (false, db)
    | some payment =>
      if db.payments.any (fun q =>
          q.id != payment.id && q.cryptoTxHash == some payload.payment_id) then
        (false, db)
      else
        let db1 : DB :=
          { db with
            payments := updatePayment db.payments payment.id (fun p =>
              { p with
                status := .COMPLETED
                cryptoTxHash := some payload.payment_id }) }
        (true, createSubscription getPlanDuration channelId db1 payment now newSubId)

/-- `PaymentService.checkCryptoPaymentStatus(paymentId)` of the NOWPayments
revision.  `providerStatus` is the `payment_status` field that the external
`getPaymentStatus` call returned.  `none` models the thrown
`Error("Payment not found")`; otherwise the result carries the
`statusChanged` flag together with the updated store. -/
def checkCryptoPaymentStatus (channelId : String) (db : DB) (paymentId : String)
    (providerStatus : String) (now : Int) (newSubId : String) :
    Option (Bool × DB) :=
  match findPaymentByTxHash db paymentId with
  | none => none
  | some payment =>
    if providerStatus = "finished" ∧ payment.status = .PENDING then
      let db1 : DB :=
        { db with
          payments := updatePayment db.payments payment.id (fun p =>
            { p with status := .COMPLETED }) }
      some (true, createSubscription getPlanDuration channelId db1 payment now newSubId)
    else if (providerStatus = "failed" ∨ providerStatus = "refunded" ∨
             providerStatus = "expired") ∧ payment.status = .PENDING then
      some (true,
        { db with
          payments := updatePayment db.payments payment.id (fun p =>
            { p with status := .FAILED }) })
    else
      some (false, db)

/-- One payment under `cleanupExpiredPayments`'s
`updateMany \x7b where: \x7b status: PENDING, expiresAt: \x7b lt: now \x7d \x7d,
data: \x7b status: EXPIRED \x7d \x7d`. -/
def sweepPayment (now : Int) (p : Payment) : Payment :=
  if p.status = .PENDING ∧ p.expiresAt < now then { p with status := .EXPIRED } else p

/-- `cleanupExpiredPayments` (identical in `PaymentService` and
`CryptoMonitor`): the bulk payment-expiry sweep. -/
def cleanupExpiredPayments (db : DB) (now : Int) : DB :=
  { db with payments := db.payments.map (sweepPayment now) }

/-- The decoded content of a TRON `TransferContract` transaction as the
monitor sees it after the tronweb collaborator resolved the hex address:
`txID`, `ret[0].contractRet`, `raw_data.contract[0].type`, the decoded
`to_address`, the `amount` in sun, and `block_timestamp`. -/
structure TrxTx where
  txID : String
  contractRet : String
  contractType : String
  toAddress : String
  amountSun : Int
  blockTimestamp : Int
deriving DecidableEq, Repr

/-- `contract.parameter.value.amount / 1000000` — the transferred amount in
TRX display units. -/
def txAmount (tx : TrxTx) : ℚ :=
  (tx.amountSun : ℚ) / 1000000

/-- `CryptoMonitor.isValidTRXTransaction(tx, payment)`: accept only a
`TransferContract` paying the payment's address an amount within `0.01` TRX
of `parseFloat(payment.expectedAmount)` and timestamped no earlier than the
payment's `createdAt`.  A `null` `expectedAmount` parses to `NaN`, whose
comparison is false. -/
def isValidTRXTransaction (tx : TrxTx) (payment : Payment) : Bool :=
  if tx.contractType ≠ "TransferContract" then false
  else
    match payment.expectedAmount with
    | none => false
    | some expected =>
      (payment.cryptoAddress == some tx.toAddress) &&
      decide (|txAmount tx - expected| < 1/100) &&
      decide (payment.createdAt ≤ tx.blockTimestamp)

/-- The `payment.findFirst` filter of `PaymentService.handleTRXTransaction`
(NOWPayments-era revision): same address, `PENDING`, `CRYPTO_TRX`, not yet
expired, and `expectedAmount` in the closed band
`[amount - 0.01, amount + 0.01]` (a `null` column fails a `gte`/`lte`
filter).  No condition mentions the transaction's timestamp. -/
def trxMatches (toAddress : String) (amount : ℚ) (now : Int) (p : Payment) : Bool :=
  (p.cryptoAddress == some toAddress) &&
  decide (p.status = .PENDING) &&
  decide (p.paymentType = .CRYPTO_TRX) &&
  decide (now ≤ p.expiresAt) &&
  (match p.expectedAmount with
   | none => false
   | some e => decide (amount - 1/100 ≤ e) && decide (e ≤ amount + 1/100))

/-- The `findFirst` of `handleTRXTransaction`. -/
def handleTRXTransactionFind (db : DB) (toAddress : String) (amount : ℚ)
    (now : Int) : Option Payment :=
  db.payments.find? (trxMatches toAddress amount now)

/-- `PaymentService.handleCryptoPayment(txHash)` of the NOWPayments-era
revision, specialised to a `TransferContract` transaction: short-circuit if a
payment already carries this hash, reject non-`SUCCESS` or non-transfer
transactions, look the payment up through `handleTRXTransaction`, then run
the completion transaction (status `COMPLETED`, `cryptoTxHash := txHash`,
`createSubscription`). -/
def handleCryptoPaymentTRX (channelId : String) (db : DB) (tx : TrxTx)
    (now : Int) (newSubId : String) : Except String Payment × DB :=
  match findPaymentByTxHash db tx.txID with
  | some existing => (.ok existing, db)
  | none =>
    if tx.contractRet ≠ "SUCCESS" then
      (.error "Invalid or failed transaction", db)
    else if tx.contractType ≠ "TransferContract" then
      (.error "Unsupported transaction type", db)
    else
      match handleTRXTransactionFind db tx.toAddress (txAmount tx) now with
      | none => (.error "No matching payment found for transaction", db)
      | some payment =>
        let db1 : DB :=
          { db with
            payments := updatePayment db.payments payment.id (fun p =>
              { p with status := .COMPLETED, cryptoTxHash := some tx.txID }) }
        (.ok payment, createSubscription getPlanDuration channelId db1 payment now newSubId)

/-- The `pre_checkout_query` handler of `PaymentHandlers.setupHandlers`
(identical across revisions): look the payment up by the query's
`invoice_payload`; decline when it is missing or `payment.expiresAt <
new Date()`; approve otherwise.  The payment's `status` is never read. -/
def preCheckoutApprove (db : DB) (invoicePayload : String) (now : Int) : Bool :=
  match findPaymentByInvoicePayload db invoicePayload with
  | none => false
  | some payment => decide (now ≤ payment.expiresAt)

/-! ### Concrete instruments

A computable stand-in for the external `crypto.createHmac("sha512", secret)`
collaborator, sharing with the real primitive the only property the
developments below rely on: different messages yield different tags. -/

/-- Stand-in for the external HMAC-SHA512 collaborator (injective in the
message, as a cryptographic MAC is in practice). -/
def hmacModel (secret msg : String) : String :=
  secret ++ ":" ++ msg

/-! ### Concrete scenario fixtures

Claim C1 scenario: a pending NOWPayments crypto payment, a correctly signed
`finished` IPN body for it, and the same body delivered twice. -/

/-- The pending crypto payment the C1 scenario starts from (created by
`NowPaymentsIntegration.createCryptoPayment`: `expectedAmount` set, one-hour
expiry, no `cryptoTxHash` yet). -/
def c1Payment : Payment :=
  { id := "p1", userId := "u1", amount := 2, currency := "USDTTRC20"
    planType := .WEEK, paymentType := .CRYPTO_USDT, status := .PENDING
    invoicePayload := some "npinv1", telegramPaymentChargeId := none
    cryptoAddress := some "TAddr1", cryptoTxHash := none
    expectedAmount := some 2, expiresAt := 3600000, createdAt := 0 }

/-- The C1 store before any webhook arrives. -/
def c1Db : DB := ⟨[c1Payment], []⟩

/-- The `finished` IPN body for `c1Payment`. -/
def c1Body : WebhookPayload :=
  { order_id := "p1", payment_status := "finished", pay_amount := 2
    pay_currency := "usdttrc20", payment_id := "np1" }

/-- The valid signature for `c1Body`. -/
def c1Sig : String := hmacModel "sec" (stringifyWebhookPayload c1Body)

/-- Store and verdict after the first delivery. -/
def c1After1 : Bool × DB := handleWebhook hmacModel "sec" "ch" c1Sig c1Body c1Db 1000 "s1"

/-- Store and verdict after replaying the identical delivery. -/
def c1After2 : Bool × DB :=
  handleWebhook hmacModel "sec" "ch" c1Sig c1Body c1After1.2 1000 "s2"

/-! Claim C2 scenario: a success webhook for an `EXPIRED` payment. -/

/-- A payment the expiry sweep already moved to `EXPIRED`. -/
def c2Payment : Payment :=
  { id := "p2", userId := "u2", amount := 2, currency := "USDTTRC20"
    planType := .DAY, paymentType := .CRYPTO_USDT, status := .EXPIRED
    invoicePayload := some "npinv2", telegramPaymentChargeId := none
    cryptoAddress := some "TAddr2", cryptoTxHash := none
    expectedAmount := some 2, expiresAt := 100, createdAt := 0 }

/-- The C2 store: just the expired payment. -/
def c2Db : DB := ⟨[c2Payment], []⟩

/-- A late `finished` IPN body for the expired payment. -/
def c2Body : WebhookPayload :=
  { order_id := "p2", payment_status := "finished", pay_amount := 2
    pay_currency := "usdttrc20", payment_id := "np2" }

/-- The late webhook, correctly signed, delivered at `now = 5000` (well past
`expiresAt = 100`). -/
def c2After : Bool × DB :=
  handleWebhook hmacModel "sec" "ch"
    (hmacModel "sec" (stringifyWebhookPayload c2Body)) c2Body c2Db 5000 "s1"

/-! Claim C3 scenario: a single active subscription `[0, 100)` for the pair,
extended at `now = 50` by a completed `WEEK` payment. -/

/-- The single active subscription of the C3 scenario: it started at `0`
and runs until `T = 100`. -/
def c3Sub : Subscription :=
  { id := "s3", userId := "u3", channelId := "ch", planType := .DAY
    startDate := 0, endDate := 100, isActive := true, paymentId := some "pOld3" }

/-- The payment whose completion extends `c3Sub` (plan `WEEK`). -/
def c3Payment : Payment :=
  { id := "p3", userId := "u3", amount := 2, currency := "USDTTRC20"
    planType := .WEEK, paymentType := .CRYPTO_USDT, status := .COMPLETED
    invoicePayload := some "npinv3", telegramPaymentChargeId := none
    cryptoAddress := some "TAddr3", cryptoTxHash := some "np3"
    expectedAmount := some 2, expiresAt := 3600000, createdAt := 0 }

/-- The C3 store: just the active subscription. -/
def c3Db : DB := ⟨[], [c3Sub]⟩

/-- The store after the extension step of the completion transaction. -/
def c3After : DB := createSubscription getPlanDuration "ch" c3Db c3Payment 50 "snew3"

/-! Claim C4 scenario: a TRX transfer timestamped *before* the payment was
created, matching the payment's address and amount exactly, fed to the
direct transaction-hash processing path. -/

/-- A pending TRX payment created at `t = 100`. -/
def c4Payment : Payment :=
  { id := "p4", userId := "u4", amount := 60, currency := "TRX"
    planType := .WEEK, paymentType := .CRYPTO_TRX, status := .PENDING
    invoicePayload := none, telegramPaymentChargeId := none
    cryptoAddress := some "TAddr4", cryptoTxHash := none
    expectedAmount := some 60, expiresAt := 1000, createdAt := 100 }

/-- A successful 60-TRX transfer to the payment's address whose block
timestamp `50` predates the payment's `createdAt = 100`. -/
def c4Tx : TrxTx :=
  { txID := "t4", contractRet := "SUCCESS", contractType := "TransferContract"
    toAddress := "TAddr4", amountSun := 60000000, blockTimestamp := 50 }

/-- The C4 store. -/
def c4Db : DB := ⟨[c4Payment], []⟩

/-- Direct transaction-hash processing of `c4Tx` at `now = 500`. -/
def c4After : Except String Payment × DB := handleCryptoPaymentTRX "ch" c4Db c4Tx 500 "s4"

/-- Witness fixture for the amended C4 law: a transfer timestamped at `200`,
after the payment's creation. -/
def c4wTx : TrxTx :=
  { txID := "t4w", contractRet := "SUCCESS", contractType := "TransferContract"
    toAddress := "TAddr4", amountSun := 60000000, blockTimestamp := 200 }

/-! Claim C5 scenario: the same IPN body once signed over its actual raw
bytes (which carry one extra space) and once signed over the handler's
re-serialization. -/

/-- A pending payment for the C5 webhook. -/
def c5Payment : Payment :=
  { id := "p5", userId := "u5", amount := 2, currency := "USDTTRC20"
    planType := .DAY, paymentType := .CRYPTO_USDT, status := .PENDING
    invoicePayload := some "npinv5", telegramPaymentChargeId := none
    cryptoAddress := some "TAddr5", cryptoTxHash := none
    expectedAmount := some 2, expiresAt := 3600000, createdAt := 0 }

/-- The C5 store. -/
def c5Db : DB := ⟨[c5Payment], []⟩

/-- The parsed `finished` IPN body for `c5Payment`. -/
def c5Body : WebhookPayload :=
  { order_id := "p5", payment_status := "finished", pay_amount := 2
    pay_currency := "usdttrc20", payment_id := "np5" }

/-- The handler-side re-serialization of the parsed body. -/
def c5Canonical : String := stringifyWebhookPayload c5Body

/-- The raw request bytes the provider actually signed: the same JSON text
for the same object, with one extra space after the first colon. -/
def c5Raw : String :=
  "\x7b\"order_id\": \"p5\",\"payment_status\":\"finished\",\"pay_amount\":2,\"pay_currency\":\"usdttrc20\",\"payment_id\":\"np5\"\x7d"

/-! Claim C6 witness fixtures: expected amount 60 TRX, observed transfer of
60.009 TRX (difference exactly 0.009). -/

/-- A pending TRX payment expecting 60 TRX. -/
def c6wPay : Payment :=
  { id := "p6", userId := "u6", amount := 60, currency := "TRX"
    planType := .WEEK, paymentType := .CRYPTO_TRX, status := .PENDING
    invoicePayload := none, telegramPaymentChargeId := none
    cryptoAddress := some "TAddr6", cryptoTxHash := none
    expectedAmount := some 60, expiresAt := 1000, createdAt := 0 }

/-- A transfer of 60.009 TRX (60009000 sun) to the payment's address. -/
def c6wTx : TrxTx :=
  { txID := "t6", contractRet := "SUCCESS", contractType := "TransferContract"
    toAddress := "TAddr6", amountSun := 60009000, blockTimestamp := 10 }

/-! Claim C7 witness fixtures: an expired, inactive old subscription and a
fresh completed payment. -/

/-- An old subscription row that is both inactive and long expired. -/
def c7wOldSub : Subscription :=
  { id := "s7old", userId := "u7", channelId := "ch", planType := .DAY
    startDate := 0, endDate := 10, isActive := false, paymentId := some "pOld7" }

/-- The freshly completed payment of the C7 scenario. -/
def c7wPay : Payment :=
  { id := "p7", userId := "u7", amount := 2, currency := "USDTTRC20"
    planType := .MONTH, paymentType := .CRYPTO_USDT, status := .COMPLETED
    invoicePayload := some "npinv7", telegramPaymentChargeId := none
    cryptoAddress := some "TAddr7", cryptoTxHash := some "np7"
    expectedAmount := some 2, expiresAt := 3600000, createdAt := 0 }

/-- The C7 store: only the stale subscription row. -/
def c7wDb : DB := ⟨[], [c7wOldSub]⟩

/-! Claim C8 witness fixture: a pending NOWPayments payment polled while the
provider reports the (locally unknown) status `confirming`. -/

/-- A pending crypto payment carrying its NOWPayments id in `cryptoTxHash`. -/
def c8wPay : Payment :=
  { id := "p8", userId := "u8", amount := 2, currency := "USDTTRC20"
    planType := .DAY, paymentType := .CRYPTO_USDT, status := .PENDING
    invoicePayload := none, telegramPaymentChargeId := none
    cryptoAddress := some "TAddr8", cryptoTxHash := some "np8"
    expectedAmount := some 2, expiresAt := 3600000, createdAt := 0 }

/-- The C8 store. -/
def c8wDb : DB := ⟨[c8wPay], []⟩

/-! Claim C9 witness fixtures: one expired pending payment next to one
completed payment. -/

/-- A pending payment already past its expiry. -/
def c9wPend : Payment :=
  { id := "p9a", userId := "u9", amount := 1, currency := "XTR"
    planType := .DAY, paymentType := .TELEGRAM_STARS, status := .PENDING
    invoicePayload := some "inv9a", telegramPaymentChargeId := none
    cryptoAddress := none, cryptoTxHash := none
    expectedAmount := none, expiresAt := 100, createdAt := 0 }

/-- A completed payment the sweep must not touch. -/
def c9wDone : Payment :=
  { id := "p9b", userId := "u9", amount := 1, currency := "XTR"
    planType := .DAY, paymentType := .TELEGRAM_STARS, status := .COMPLETED
    invoicePayload := some "inv9b", telegramPaymentChargeId := some "ch9b"
    cryptoAddress := none, cryptoTxHash := none
    expectedAmount := none, expiresAt := 100, createdAt := 0 }

/-- The C9 store. -/
def c9wDb : DB := ⟨[c9wPend, c9wDone], []⟩

/-! Claim C10 witness fixture: an already-`COMPLETED` payment whose
`expiresAt` has not passed. -/

/-- A completed Telegram-Stars payment, not yet past `expiresAt`. -/
def c10wPay : Payment :=
  { id := "p10", userId := "u10", amount := 1, currency := "XTR"
    planType := .DAY, paymentType := .TELEGRAM_STARS, status := .COMPLETED
    invoicePayload := some "inv10", telegramPaymentChargeId := some "ch10"
    cryptoAddress := none, cryptoTxHash := none
    expectedAmount := none, expiresAt := 1000, createdAt := 0 }

/-- The C10 store. -/
def c10wDb : DB := ⟨[c10wPay], []⟩

/-! ### Helper lemmas -/

/-- Filtering commutes with mapping a function that does not change the
filter's verdict. -/
theorem filter_map_of_pred_inv {α : Type} (f : α → α) (p : α → Bool)
    (l : List α) (h : ∀ a, p (f a) = p a) :
    (l.map f).filter p = (l.filter p).map f := by
  induction l with
  | nil => rfl
  | cons a t ih =>
    simp only [List.map_cons, List.filter_cons, h a]
    cases p a <;> simp [ih]

/-- Applying the payment-expiry sweep to an already swept payment changes
nothing. -/
theorem sweepPayment_idem (now : Int) (p : Payment) :
    sweepPayment now (sweepPayment now p) = sweepPayment now p := by
  unfold sweepPayment
  by_cases h : p.status = .PENDING ∧ p.expiresAt < now <;> simp [h]

/-- The `find?` of the pre-checkout lookup commutes with replacing every
payment's status (the lookup never reads the status). -/
theorem find_invoice_status_map (l : List Payment) (f : Payment → PaymentStatus)
    (payload : String) :
    (l.map (fun p => { p with status := f p })).find?
        (fun p => p.invoicePayload == some payload)
      = (l.find? (fun p => p.invoicePayload == some payload)).map
          (fun p => { p with status := f p }) := by
  induction l with
  | nil => rfl
  | cons a t ih =>
    simp only [List.map_cons, List.find?]
    cases h : (a.invoicePayload == some payload) <;> simp [h, ih]

/-- Unfolding characterization of the monitor's TRX validator. -/
theorem isValidTRXTransaction_eq_true (tx : TrxTx) (p : Payment) :
    isValidTRXTransaction tx p = true ↔
      tx.contractType = "TransferContract" ∧
      ∃ e, p.expectedAmount = some e ∧
        p.cryptoAddress = some tx.toAddress ∧
        |txAmount tx - e| < 1/100 ∧
        p.createdAt ≤ tx.blockTimestamp := by
  unfold isValidTRXTransaction
  by_cases hct : tx.contractType = "TransferContract"
  · cases hE : p.expectedAmount <;>
      simp [hct, hE, Bool.and_eq_true, decide_eq_true_eq, and_assoc]
  · simp [hct]

/-- Unfolding characterization of the `findFirst` filter of
`handleTRXTransaction`. -/
theorem trxMatches_eq_true (toAddress : String) (amount : ℚ) (now : Int)
    (p : Payment) :
    trxMatches toAddress amount now p = true ↔
      p.cryptoAddress = some toAddress ∧
      p.status = .PENDING ∧
      p.paymentType = .CRYPTO_TRX ∧
      now ≤ p.expiresAt ∧
      ∃ e, p.expectedAmount = some e ∧
        amount - 1/100 ≤ e ∧ e ≤ amount + 1/100 := by
  unfold trxMatches
  cases hE : p.expectedAmount <;>
    simp [hE, Bool.and_eq_true, decide_eq_true_eq, and_assoc]

/-! ### Claim theorems -/

/-- Claim C1: delivering the same terminal-success webhook payload twice is
claimed to create or extend exactly one subscription, the second delivery
being a no-op.  On the code the second delivery is *not* a no-op:
`handleWebhook` never checks that the payment is still `PENDING`, so the
replay re-runs the completion transaction and pushes the subscription's
`endDate` forward by another plan duration (here from `now + 7d` to
`now + 14d`), again reporting success. -/
theorem c1_webhook_replay_extends_twice :
    c1After1.1 = true ∧
    c1After1.2.subscriptions.map Subscription.endDate = [604801000] ∧
    c1After2.1 = true ∧
    c1After2.2.subscriptions.map Subscription.endDate = [1209601000] ∧
    c1After2.2 ≠ c1After1.2 := by
  decide

/-- Claim C2: a non-`PENDING` payment status is claimed terminal, a later
success webhook for an `EXPIRED` payment being rejected or ignored.  On the
code `handleWebhook` looks the payment up by `order_id` with no status
filter and unconditionally completes it: the `EXPIRED` payment becomes
`COMPLETED`, a subscription is created, and the handler reports success. -/
theorem c2_webhook_completes_expired_payment :
    c2Payment.status = .EXPIRED ∧
    c2After.1 = true ∧
    c2After.2.payments.map Payment.status = [.COMPLETED] ∧
    c2After.2.subscriptions.length = 1 := by
  decide

/-- Claim C3 counterexample: extending the active subscription
`[startDate = 0, endDate = 100)` by a `WEEK` payment at `now = 50` leaves
exactly one row with `endDate = T + D = 100 + 604800000`, but its
`startDate` is still `0`, not `T = 100` as the claim asserts: the in-place
update writes only `endDate` and `planType`. -/
theorem c3_extension_keeps_original_startDate :
    c3After.subscriptions =
      [{ c3Sub with endDate := 100 + 604800000, planType := .WEEK }] ∧
    c3After.subscriptions.map Subscription.startDate = [0] ∧
    (0 : Int) ≠ 100 := by
  decide

/-- Claim C3 (amended): if the store holds exactly one subscription row for
the (user, channel) pair and that row is the single active one, completing a
payment of duration `D` leaves the payment table alone, creates no row, and
rewrites that single row to `endDate = T + D` with the new `planType`, its
`startDate` and payment back-reference untouched (`startDate` keeps its
original value rather than becoming `T`). -/
theorem c3_extension_law (planDuration : PlanType → Int) (channelId : String)
    (db : DB) (payment : Payment) (now : Int) (newSubId : String)
    (s : Subscription)
    (hactive : db.subscriptions.filter (isActiveSubFor payment.userId channelId now) = [s])
    (hpair : db.subscriptions.filter
        (fun t => t.userId == payment.userId && t.channelId == channelId) = [s]) :
    (createSubscription planDuration channelId db payment now newSubId).payments
        = db.payments ∧
    (createSubscription planDuration channelId db payment now newSubId).subscriptions.length
        = db.subscriptions.length ∧
    (createSubscription planDuration channelId db payment now newSubId).subscriptions.filter
        (fun t => t.userId == payment.userId && t.channelId == channelId)
        = [{ s with endDate := s.endDate + planDuration payment.planType,
                    planType := payment.planType }] ∧
    ({ s with endDate := s.endDate + planDuration payment.planType,
              planType := payment.planType } : Subscription).startDate = s.startDate ∧
    ({ s with endDate := s.endDate + planDuration payment.planType,
              planType := payment.planType } : Subscription).paymentId = s.paymentId := by
  have hfind : findActiveSubscription db payment.userId channelId now = some s := by
    unfold findActiveSubscription
    rw [hactive]
    rfl
  unfold createSubscription
  rw [hfind]
  refine ⟨rfl, ?_, ?_, rfl, rfl⟩
  · simp [updateSubscription]
  · unfold updateSubscription
    rw [filter_map_of_pred_inv _ _ _ ?hinv, hpair]
    · simp
    case hinv =>
      intro t
      by_cases ht : t.id = s.id <;> simp [ht]

/-- Witness for the amended C3 law at the concrete C3 scenario. -/
theorem c3_extension_law_witness :
    c3After.subscriptions.filter
        (fun t => t.userId == c3Payment.userId && t.channelId == "ch")
      = [{ c3Sub with endDate := c3Sub.endDate + getPlanDuration c3Payment.planType,
                      planType := c3Payment.planType }] :=
  (c3_extension_law getPlanDuration "ch" c3Db c3Payment 50 "snew3" c3Sub
    (by decide) (by decide)).2.2.1

/-- Claim C4 counterexample: the transfer `c4Tx` is timestamped at `50`,
strictly before the payment's `createdAt = 100`, yet the direct
transaction-hash path (`handleCryptoPayment` → `handleTRXTransaction`, which
filters only on address, amount band, `PENDING` status and expiry) matches
it and completes the payment. -/
theorem c4_direct_path_completes_earlier_tx :
    c4Tx.blockTimestamp < c4Payment.createdAt ∧
    c4After.1 = Except.ok c4Payment ∧
    c4After.2.payments.map Payment.status = [.COMPLETED] ∧
    c4After.2.subscriptions.length = 1 := by
  have hm : trxMatches c4Tx.toAddress (txAmount c4Tx) 500 c4Payment = true := by
    rw [trxMatches_eq_true]
    refine ⟨by decide, by decide, by decide, by decide, 60, by decide, ?_, ?_⟩
    · show txAmount c4Tx - 1/100 ≤ 60
      norm_num [txAmount, c4Tx]
    · show (60 : ℚ) ≤ txAmount c4Tx + 1/100
      norm_num [txAmount, c4Tx]
  have hfind : handleTRXTransactionFind c4Db c4Tx.toAddress (txAmount c4Tx) 500
      = some c4Payment := by
    unfold handleTRXTransactionFind c4Db
    simp [List.find?, hm]
  have hnohash : findPaymentByTxHash c4Db c4Tx.txID = none := by decide
  have hres : c4After = (Except.ok c4Payment,
      createSubscription getPlanDuration "ch"
        ⟨[{ c4Payment with status := .COMPLETED, cryptoTxHash := some c4Tx.txID }], []⟩
        c4Payment 500 "s4") := by
    unfold c4After handleCryptoPaymentTRX
    rw [hnohash, if_neg (by decide), if_neg (by decide), hfind]
    rfl
  rw [hres]
  refine ⟨by decide, rfl, by decide, by decide⟩

/-- Claim C4 (amended): causality is enforced only by the monitor's
transaction validator — `isValidTRXTransaction` accepts a transfer only if
its block timestamp is not earlier than the payment's `createdAt`; the
direct transaction-hash processing path imposes no such condition. -/
theorem c4_monitor_validator_enforces_causality (tx : TrxTx) (p : Payment)
    (h : isValidTRXTransaction tx p = true) :
    p.createdAt ≤ tx.blockTimestamp := by
  obtain ⟨-, e, -, -, -, hts⟩ := (isValidTRXTransaction_eq_true tx p).mp h
  exact hts

/-- Witness for the amended C4 law: a transfer at `t = 200` to the C4
payment (created at `t = 100`) passes the validator, and the law yields the
timestamp bound. -/
theorem c4_monitor_validator_witness :
    isValidTRXTransaction c4wTx c4Payment = true ∧
    c4Payment.createdAt ≤ c4wTx.blockTimestamp := by
  have hv : isValidTRXTransaction c4wTx c4Payment = true := by
    rw [isValidTRXTransaction_eq_true]
    refine ⟨by decide, 60, by decide, by decide, ?_, by decide⟩
    norm_num [txAmount, c4wTx, abs_lt]
  exact ⟨hv, c4_monitor_validator_enforces_causality c4wTx c4Payment hv⟩

/-- Claim C5 counterexample: the webhook handler does not verify the HMAC
over the raw payload bytes.  `c5Raw` is a JSON text for the very body the
handler received, differing from the handler's re-serialization only by one
space; a signature computed (as the provider computes it) over those raw
bytes is rejected, while a signature over `JSON.stringify` of the
already-parsed body is accepted. -/
theorem c5_signature_not_over_raw_bytes :
    c5Raw ≠ c5Canonical ∧
    handleWebhook hmacModel "sec" "ch" (hmacModel "sec" c5Raw) c5Body c5Db 0 "s5"
      = (false, c5Db) ∧
    (handleWebhook hmacModel "sec" "ch" (hmacModel "sec" c5Canonical) c5Body c5Db 0 "s5").1
      = true := by
  decide

/-- Claim C5 (amended): the handler verifies the HMAC-SHA512 signature over
`JSON.stringify` of the already-parsed payload — not over the raw request
bytes — before doing anything else, and on a mismatch it returns failure
with every Payment and Subscription row unchanged. -/
theorem c5_mismatch_rejected_no_state_change
    (hmacSha512 : String → String → String)
    (ipnSecret channelId signature : String) (payload : WebhookPayload)
    (db : DB) (now : Int) (newSubId : String)
    (h : signature ≠ hmacSha512 ipnSecret (stringifyWebhookPayload payload)) :
    handleWebhook hmacSha512 ipnSecret channelId signature payload db now newSubId
      = (false, db) := by
  unfold handleWebhook
  rw [if_pos h]

/-- Witness for the amended C5 statement: a wrong signature on the C5 body
is rejected with the store unchanged. -/
theorem c5_mismatch_rejected_witness :
    handleWebhook hmacModel "sec" "ch" "badsig" c5Body c5Db 0 "s5" = (false, c5Db) :=
  c5_mismatch_rejected_no_state_change hmacModel "sec" "ch" "badsig" c5Body c5Db 0 "s5"
    (by decide)

/-- Claim C6: both crypto-matching strategies use the fixed absolute
tolerance `0.01`: given a candidate transfer to the right address that also
satisfies the other filters, a deviation of at most `0.009` from the
expected amount is accepted by the monitor validator and by the
`handleTRXTransaction` lookup filter, while a deviation of exactly `0.02`
is accepted by neither — and then the direct processing path reports "no
matching payment" and leaves the store (hence the `PENDING` payment)
unchanged. -/
theorem c6_tolerance_matching (tx : TrxTx) (p : Payment) (E : ℚ) (now : Int)
    (hct : tx.contractType = "TransferContract")
    (haddr : p.cryptoAddress = some tx.toAddress)
    (hexp : p.expectedAmount = some E)
    (hts : p.createdAt ≤ tx.blockTimestamp)
    (hst : p.status = .PENDING)
    (hpt : p.paymentType = .CRYPTO_TRX)
    (hexpiry : now ≤ p.expiresAt) :
    (|txAmount tx - E| ≤ 9/1000 →
       isValidTRXTransaction tx p = true ∧
       trxMatches tx.toAddress (txAmount tx) now p = true) ∧
    (|txAmount tx - E| = 2/100 →
       isValidTRXTransaction tx p = false ∧
       trxMatches tx.toAddress (txAmount tx) now p = false ∧
       ∀ (channelId newSubId : String) (db : DB), db.payments = [p] →
         p.cryptoTxHash ≠ some tx.txID → tx.contractRet = "SUCCESS" →
         handleCryptoPaymentTRX channelId db tx now newSubId
           = (.error "No matching payment found for transaction", db)) := by
  constructor
  · intro hd
    have hband := abs_le.mp hd
    constructor
    · rw [isValidTRXTransaction_eq_true]
      exact ⟨hct, E, hexp, haddr, lt_of_le_of_lt hd (by norm_num), hts⟩
    · rw [trxMatches_eq_true]
      exact ⟨haddr, hst, hpt, hexpiry, E, hexp, by linarith [hband.2], by linarith [hband.1]⟩
  · intro hd
    have habs := (abs_eq (by norm_num : (0:ℚ) ≤ 2/100)).mp hd
    have hnotlt : ¬ |txAmount tx - E| < 1/100 := by rw [hd]; norm_num
    have hnotband : ¬ (txAmount tx - 1/100 ≤ E ∧ E ≤ txAmount tx + 1/100) := by
      rcases habs with h | h
      · rintro ⟨h1, -⟩; linarith
      · rintro ⟨-, h2⟩; linarith
    have hv : isValidTRXTransaction tx p = false := by
      rw [Bool.eq_false_iff]
      intro hcon
      obtain ⟨-, e, he, -, hlt, -⟩ := (isValidTRXTransaction_eq_true tx p).mp hcon
      rw [hexp] at he
      obtain rfl : E = e := Option.some.inj he
      exact hnotlt hlt
    have hmfalse : trxMatches tx.toAddress (txAmount tx) now p = false := by
      rw [Bool.eq_false_iff]
      intro hcon
      obtain ⟨-, -, -, -, e, he, hb1, hb2⟩ :=
        (trxMatches_eq_true tx.toAddress (txAmount tx) now p).mp hcon
      rw [hexp] at he
      obtain rfl : E = e := Option.some.inj he
      exact hnotband ⟨hb1, hb2⟩
    refine ⟨hv, hmfalse, ?_⟩
    intro channelId newSubId db hdb hnh hret
    unfold handleCryptoPaymentTRX
    have h0 : findPaymentByTxHash db tx.txID = none := by
      have hb : (p.cryptoTxHash == some tx.txID) = false := by
        rw [beq_eq_false_iff_ne]
        exact hnh
      unfold findPaymentByTxHash
      rw [hdb]
      simp [List.find?, hb]
    have h1 : handleTRXTransactionFind db tx.toAddress (txAmount tx) now = none := by
      unfold handleTRXTransactionFind
      rw [hdb]
      simp [List.find?, hmfalse]
    rw [h0, if_neg (not_not_intro hret), if_neg (not_not_intro hct), h1]

/-- Witness for C6: expected amount 60 TRX, a transfer of 60.009 TRX
(difference exactly 0.009), instantiating both tolerance branches. -/
theorem c6_tolerance_matching_witness :
    (|txAmount c6wTx - 60| ≤ 9/1000 →
       isValidTRXTransaction c6wTx c6wPay = true ∧
       trxMatches c6wTx.toAddress (txAmount c6wTx) 500 c6wPay = true) ∧
    (|txAmount c6wTx - 60| = 2/100 →
       isValidTRXTransaction c6wTx c6wPay = false ∧
       trxMatches c6wTx.toAddress (txAmount c6wTx) 500 c6wPay = false ∧
       ∀ (channelId newSubId : String) (db : DB), db.payments = [c6wPay] →
         c6wPay.cryptoTxHash ≠ some c6wTx.txID → c6wTx.contractRet = "SUCCESS" →
         handleCryptoPaymentTRX channelId db c6wTx 500 newSubId
           = (.error "No matching payment found for transaction", db)) :=
  c6_tolerance_matching c6wTx c6wPay 60 500 (by decide) (by decide) (by decide)
    (by decide) (by decide) (by decide) (by decide)

/-- Claim C7: when no subscription row of the store is active for the
payment's (user, channel) pair at completion time, the completion creates
exactly one new row `[now, now + D)` back-referencing the payment, and
touches nothing else. -/
theorem c7_fresh_grant (planDuration : PlanType → Int) (channelId : String)
    (db : DB) (payment : Payment) (now : Int) (newSubId : String)
    (h : ∀ s ∈ db.subscriptions, isActiveSubFor payment.userId channelId now s = false) :
    createSubscription planDuration channelId db payment now newSubId
      = { db with subscriptions := db.subscriptions ++
          [{ id := newSubId, userId := payment.userId, channelId := channelId,
             planType := payment.planType, startDate := now,
             endDate := now + planDuration payment.planType,
             isActive := true, paymentId := some payment.id }] } ∧
    (createSubscription planDuration channelId db payment now newSubId).subscriptions.length
      = db.subscriptions.length + 1 := by
  have hfil : db.subscriptions.filter (isActiveSubFor payment.userId channelId now) = [] := by
    rw [List.filter_eq_nil_iff]
    intro a ha
    simp [h a ha]
  have hfind : findActiveSubscription db payment.userId channelId now = none := by
    unfold findActiveSubscription
    rw [hfil]
    rfl
  have heq : createSubscription planDuration channelId db payment now newSubId
      = { db with subscriptions := db.subscriptions ++
          [{ id := newSubId, userId := payment.userId, channelId := channelId,
             planType := payment.planType, startDate := now,
             endDate := now + planDuration payment.planType,
             isActive := true, paymentId := some payment.id }] } := by
    unfold createSubscription
    rw [hfind]
  exact ⟨heq, by rw [heq]; simp⟩

/-- Witness for C7 at the concrete scenario: the pair's only row is
inactive and expired, and a fresh `MONTH` grant `[1000, 1000 + 30d)` is
appended. -/
theorem c7_fresh_grant_witness :
    createSubscription getPlanDuration "ch" c7wDb c7wPay 1000 "s7new"
      = { c7wDb with subscriptions := c7wDb.subscriptions ++
          [{ id := "s7new", userId := c7wPay.userId, channelId := "ch",
             planType := c7wPay.planType, startDate := 1000,
             endDate := 1000 + getPlanDuration c7wPay.planType,
             isActive := true, paymentId := some c7wPay.id }] } :=
  (c7_fresh_grant getPlanDuration "ch" c7wDb c7wPay 1000 "s7new" (by decide)).1

/-- Claim C8: when the provider reports any status other than `finished`
and other than `failed`/`refunded`/`expired` for a polled pending payment —
including a status unknown to the local enum — `checkCryptoPaymentStatus`
reports `statusChanged = false` and leaves the store untouched. -/
theorem c8_unrecognized_status_is_noop (channelId : String) (db : DB)
    (paymentId providerStatus : String) (now : Int) (newSubId : String)
    (p : Payment)
    (hfind : findPaymentByTxHash db paymentId = some p)
    (_hpend : p.status = .PENDING)
    (h1 : providerStatus ≠ "finished") (h2 : providerStatus ≠ "failed")
    (h3 : providerStatus ≠ "refunded") (h4 : providerStatus ≠ "expired") :
    checkCryptoPaymentStatus channelId db paymentId providerStatus now newSubId
      = some (false, db) := by
  have hc1 : ¬(providerStatus = "finished" ∧ p.status = .PENDING) :=
    fun hc => h1 hc.1
  have hc2 : ¬((providerStatus = "failed" ∨ providerStatus = "refunded" ∨
      providerStatus = "expired") ∧ p.status = .PENDING) := by
    rintro ⟨hc | hc | hc, -⟩
    exacts [h2 hc, h3 hc, h4 hc]
  unfold checkCryptoPaymentStatus
  rw [hfind]
  simp only [if_neg hc1, if_neg hc2]

/-- Witness for C8: the provider status `confirming` (absent from the local
enum) leaves the pending C8 payment and the whole store unchanged. -/
theorem c8_unrecognized_status_witness :
    checkCryptoPaymentStatus "ch" c8wDb "np8" "confirming" 0 "s8"
      = some (false, c8wDb) :=
  c8_unrecognized_status_is_noop "ch" c8wDb "np8" "confirming" 0 "s8" c8wPay
    (by decide) (by decide) (by decide) (by decide) (by decide) (by decide)

/-- Claim C9: the payment-expiry sweep leaves the subscription table and the
number of payment rows unchanged, is idempotent, and rewrites a payment iff
it is `PENDING` with `expiresAt < now` — in which case only the status
changes, to `EXPIRED`. -/
theorem c9_payment_expiry_sweep (db : DB) (now : Int) :
    (cleanupExpiredPayments db now).subscriptions = db.subscriptions ∧
    (cleanupExpiredPayments db now).payments.length = db.payments.length ∧
    cleanupExpiredPayments (cleanupExpiredPayments db now) now
      = cleanupExpiredPayments db now ∧
    ∀ p ∈ db.payments,
      sweepPayment now p ∈ (cleanupExpiredPayments db now).payments ∧
      (¬(p.status = .PENDING ∧ p.expiresAt < now) → sweepPayment now p = p) ∧
      (p.status = .PENDING → p.expiresAt < now →
        sweepPayment now p = { p with status := .EXPIRED }) := by
  refine ⟨rfl, by simp [cleanupExpiredPayments], ?_, ?_⟩
  · unfold cleanupExpiredPayments
    congr 1
    rw [List.map_map]
    exact List.map_congr_left (fun a _ => sweepPayment_idem now a)
  · intro p hp
    refine ⟨List.mem_map_of_mem _ hp, ?_, ?_⟩
    · intro hn
      unfold sweepPayment
      rw [if_neg hn]
    · intro hs he
      unfold sweepPayment
      rw [if_pos ⟨hs, he⟩]

/-- Witness for C9 on a store holding one expired pending payment and one
completed payment. -/
theorem c9_payment_expiry_sweep_witness :
    (cleanupExpiredPayments c9wDb 200).subscriptions = c9wDb.subscriptions ∧
    cleanupExpiredPayments (cleanupExpiredPayments c9wDb 200) 200
      = cleanupExpiredPayments c9wDb 200 ∧
    sweepPayment 200 c9wPend = { c9wPend with status := .EXPIRED } ∧
    sweepPayment 200 c9wDone = c9wDone := by
  obtain ⟨h1, -, h3, h4⟩ := c9_payment_expiry_sweep c9wDb 200
  refine ⟨h1, h3, ?_, ?_⟩
  · exact (h4 c9wPend (by decide)).2.2 (by decide) (by decide)
  · exact (h4 c9wDone (by decide)).2.1 (by decide)

/-- Claim C10: the pre-checkout handler approves exactly the queries whose
`invoice_payload` resolves to a payment with `expiresAt ≥ now`, and its
verdict is invariant under arbitrarily rewriting every payment's status —
a `COMPLETED`, `FAILED` or `EXPIRED` payment is approved just like a
`PENDING` one. -/
theorem c10_precheckout_ignores_payment_status (db : DB) (payload : String)
    (now : Int) :
    (preCheckoutApprove db payload now = true ↔
      ∃ p, findPaymentByInvoicePayload db payload = some p ∧ now ≤ p.expiresAt) ∧
    ∀ f : Payment → PaymentStatus,
      preCheckoutApprove
          ⟨db.payments.map (fun p => { p with status := f p }), db.subscriptions⟩
          payload now
        = preCheckoutApprove db payload now := by
  constructor
  · unfold preCheckoutApprove
    cases hfind : findPaymentByInvoicePayload db payload with
    | none => simp
    | some p =>
      simp only [decide_eq_true_eq]
      constructor
      · intro hle
        exact ⟨p, rfl, hle⟩
      · rintro ⟨q, hq, hle⟩
        obtain rfl : p = q := Option.some.inj hq
        exact hle
  · intro f
    have hmap : findPaymentByInvoicePayload
        ⟨db.payments.map (fun p => { p with status := f p }), db.subscriptions⟩ payload
        = (findPaymentByInvoicePayload db payload).map
            (fun p => { p with status := f p }) := by
      unfold findPaymentByInvoicePayload
      exact find_invoice_status_map db.payments f payload
    unfold preCheckoutApprove
    rw [hmap]
    cases hf : findPaymentByInvoicePayload db payload <;> simp

/-- Witness for C10: the `COMPLETED`, unexpired payment `c10wPay` is
approved. -/
theorem c10_precheckout_witness :
    preCheckoutApprove c10wDb "inv10" 10 = true ∧ c10wPay.status = .COMPLETED :=
  ⟨(c10_precheckout_ignores_payment_status c10wDb "inv10" 10).1.mpr
      ⟨c10wPay, by decide, by decide⟩,
   by decide⟩

end TgSeller
